import Mathlib

/-!
Verification development for the MetaVal tool-info adapter
(`benchexec/tools/metaval.py`).

The adapter builds the command line for the MetaVal wrapper tool, lazily
resolves the wrapped verifier's own tool-info module (the "sub-adapter"),
temporarily changes the process working directory around calls into the
sub-adapter, and delegates result classification to it.

Shallow embedding conventions:
- The process working directory is threaded explicitly; every entry point
  returns a `Step` bundling the Python return/exit/exception outcome, the
  adapter instance state after the call, the final working directory, and a
  trace of observable events (`os.chdir` calls and `__import__` attempts).
- Python attributes that may be unset (`self.verifierName`,
  `self.wrappedTool`) are `Option` fields; `hasattr` is a match on them.
- `sys.exit(msg)` is `POutcome.sysExit msg`; a propagating Python exception
  is `POutcome.raise`; argparse's missing-required-argument exit is also a
  `sysExit` (argparse raises `SystemExit(2)` after printing a diagnostic).
- The dynamic `__import__("benchexec.tools." + name).Tool()` is an
  environment function `Env.importTool`; `none` models an `ImportError`.
- The sub-adapter is an opaque collaborator: a record of functions, each
  taking the current working directory as its first argument (the real
  sub-adapters may depend on it).
- `argparse.ArgumentParser.parse_known_args` is modelled for long options
  given as separate `--flag value` tokens (the forms exercised by the
  Runner); abbreviated flags and `--flag=value` are not modelled.
-/

namespace Metaval

/-- Resource limits are forwarded opaquely to the sub-adapter; modelled as an
association list. -/
abbrev RLimits := List (String × String)

/-- Python exceptions that the adapter's code paths can raise. -/
inductive PyExn where
  | importError (moduleName : String)
  | keyError (key : String)
  | typeError (msg : String)
  | attributeError (attrName : String)
deriving DecidableEq

/-- Outcome of a Python call: normal return, `sys.exit` (process terminates
with the message on stderr and nonzero status), or a propagating exception. -/
inductive POutcome (α : Type) where
  | ok (value : α)
  | sysExit (msg : String)
  | raise (e : PyExn)
deriving DecidableEq

/-- Observable side effects: `os.chdir` calls and dynamic tool resolution
(`__import__` plus `Tool()` construction) attempts. -/
inductive Event where
  | chdir (path : String)
  | resolve (toolName : String)
deriving DecidableEq

/-- Whether an event is a dynamic tool-resolution attempt. -/
def Event.isResolve : Event → Bool
  | .resolve _ => true
  | .chdir _ => false

/-- The wrapped tool's tool-info module: an opaque collaborator implementing
executable/cmdline/determine_result.  Each function takes the current working
directory first, since the real modules may read it. -/
structure SubAdapter where
  executable : String → String
  cmdline : String → String → List String → List String → String → RLimits →
    Except PyExn (List String)
  determine_result : String → Int → Int → String → Bool → Except PyExn String

/-- The dynamic-import environment: which names `benchexec.tools.<name>`
resolve to a loadable sub-adapter. -/
structure Env where
  importTool : String → Option SubAdapter

/-- Instance state of the adapter: the two lazily-set attributes. -/
structure ToolState where
  verifierName : Option String
  wrappedTool : Option SubAdapter

/-- Result of one entry-point call: Python outcome, state after the call,
working directory after the call, and the emitted events. -/
structure Step (α : Type) where
  out : POutcome α
  state : ToolState
  cwd : String
  events : List Event

/-- Model of Python `str.lower()` (ASCII case folding, character-wise). -/
def str_lower (s : String) : String := ⟨s.data.map Char.toLower⟩

/-- Model of `os.path.join` for two components. -/
def os_path_join (a b : String) : String :=
  if b.startsWith "/" then b
  else if a = "" || a.endsWith "/" then a ++ b
  else a ++ "/" ++ b

/-- Path components of a path string, with empty and `.` components
dropped (a simple `os.path.normpath`-style cleanup). -/
def splitPath (p : String) : List String :=
  (p.splitOn "/").filter (fun c => !(c == "" || c == "."))

/-- Drop the longest common leading run of two component lists. -/
def stripCommon : List String → List String → List String × List String
  | a :: as, b :: bs => if a = b then stripCommon as bs else (a :: as, b :: bs)
  | as, bs => (as, bs)

/-- Model of `os.path.relpath(p)` evaluated while the process working
directory is `cwd`. -/
def os_path_relpath (cwd p : String) : String :=
  let rest := stripCommon (splitPath (os_path_join cwd p)) (splitPath cwd)
  let comps := rest.2.map (fun _ => "..") ++ rest.1
  if comps.isEmpty then "." else String.intercalate "/" comps

/-- Accumulator for the four adapter-specific options while scanning. -/
structure RawArgs where
  metavalWitness : Option String
  metaval : Option String
  metavalAdditionalPATH : Option String
  metavalWitnessType : Option String

/-- The four adapter-specific options after the required-argument check. -/
structure KnownArgs where
  metavalWitness : String
  metaval : String
  metavalAdditionalPATH : Option String
  metavalWitnessType : Option String
deriving DecidableEq

/-- Scan of the option list: consume the four known long options together
with their value token, keep every other token (in order) in the remainder.
A known flag as the last token is argparse's expected-one-argument error. -/
def scanKnownArgs : List String → RawArgs → List String →
    Except String (RawArgs × List String)
  | [], acc, rem => .ok (acc, rem)
  | ["--metavalWitness"], _, _ =>
    .error "metaval: error: argument --metavalWitness: expected one argument"
  | "--metavalWitness" :: v :: rest, acc, rem =>
    scanKnownArgs rest
      ⟨some v, acc.metaval, acc.metavalAdditionalPATH, acc.metavalWitnessType⟩ rem
  | ["--metaval"], _, _ =>
    .error "metaval: error: argument --metaval: expected one argument"
  | "--metaval" :: v :: rest, acc, rem =>
    scanKnownArgs rest
      ⟨acc.metavalWitness, some v, acc.metavalAdditionalPATH, acc.metavalWitnessType⟩ rem
  | ["--metavalAdditionalPATH"], _, _ =>
    .error "metaval: error: argument --metavalAdditionalPATH: expected one argument"
  | "--metavalAdditionalPATH" :: v :: rest, acc, rem =>
    scanKnownArgs rest
      ⟨acc.metavalWitness, acc.metaval, some v, acc.metavalWitnessType⟩ rem
  | ["--metavalWitnessType"], _, _ =>
    .error "metaval: error: argument --metavalWitnessType: expected one argument"
  | "--metavalWitnessType" :: v :: rest, acc, rem =>
    scanKnownArgs rest
      ⟨acc.metavalWitness, acc.metaval, acc.metavalAdditionalPATH, some v⟩ rem
  | t :: rest, acc, rem => scanKnownArgs rest acc (rem ++ [t])

/-- Model of `parser.parse_known_args(options)` for the parser built in
`Tool.cmdline`: scan the options, then enforce the two required arguments
(argparse exits with a diagnostic when one is missing). -/
def parse_known_args (options : List String) :
    Except String (KnownArgs × List String) :=
  match scanKnownArgs options ⟨none, none, none, none⟩ [] with
  | .error m => .error m
  | .ok (raw, rem) =>
    match raw.metavalWitness, raw.metaval with
    | some w, some m =>
      .ok (⟨w, m, raw.metavalAdditionalPATH, raw.metavalWitnessType⟩, rem)
    | none, some _ =>
      .error "metaval: error: the following arguments are required: --metavalWitness"
    | some _, none =>
      .error "metaval: error: the following arguments are required: --metaval"
    | none, none =>
      .error "metaval: error: the following arguments are required: --metavalWitness, --metaval"

namespace Tool

/-- The fixed identifier-to-directory mapping `Tool.TOOL_TO_PATH_MAP`. -/
def TOOL_TO_PATH_MAP : List (String × String) :=
  [("cpachecker-metaval", "CPAchecker"),
   ("cpachecker", "CPAchecker-1.7-svn 29852-unix"),
   ("esbmc", "esbmc"),
   ("symbiotic", "symbiotic"),
   ("yogar-cbmc", "yogar-cbmc"),
   ("ultimateautomizer", "UAutomizer-linux")]

/-- `Tool.REQUIRED_PATHS = list(TOOL_TO_PATH_MAP.values())`. -/
def REQUIRED_PATHS : List String := TOOL_TO_PATH_MAP.map Prod.snd

/-- `Tool.name()`. -/
def name : String := "metaval"

/-- Model of the `_in_tool_directory` context manager wrapped around `body`:
read the cwd, `os.chdir` into `TOOL_TO_PATH_MAP[self.verifierName]` joined
with the old cwd, run `body` (which receives the new cwd and the yielded old
cwd), and in a `finally` block always `os.chdir` back to the old cwd.  A
missing `verifierName` attribute is an `AttributeError`; an identifier
outside the map is a `KeyError`; both are raised inside the `try`, so the
`finally` restore still runs. -/
def in_tool_directory {α : Type} (st : ToolState) (cwd : String)
    (body : String → String → Except PyExn α) :
    Except PyExn α × String × List Event :=
  match st.verifierName with
  | none => (.error (.attributeError "verifierName"), cwd, [.chdir cwd])
  | some vn =>
    match TOOL_TO_PATH_MAP.lookup vn with
    | none => (.error (.keyError vn), cwd, [.chdir cwd])
    | some dir =>
      (body (os_path_join cwd dir) cwd, cwd,
        [.chdir (os_path_join cwd dir), .chdir cwd])

/-- Model of `Tool.determine_result`: without a resolved `wrappedTool`
attribute return the sentinel verdict, otherwise delegate to the sub-adapter
inside `_in_tool_directory`. -/
def determine_result (st : ToolState) (cwd : String)
    (returncode returnsignal : Int) (output : String) (isTimeout : Bool) :
    Step String :=
  match st.wrappedTool with
  | none => ⟨.ok "METAVAL ERROR", st, cwd, []⟩
  | some sub =>
    match in_tool_directory st cwd
        (fun newCwd _old =>
          sub.determine_result newCwd returncode returnsignal output isTimeout) with
    | (.ok v, cwd2, evs) => ⟨.ok v, st, cwd2, evs⟩
    | (.error e, cwd2, evs) => ⟨.raise e, st, cwd2, evs⟩

/-- The `["--additionalPATH", path]` fragment: included only when the option
was parsed to a truthy (non-`None`, non-empty) value, per Python `if x`. -/
def additionalPathArgument (k : KnownArgs) : List String :=
  match k.metavalAdditionalPATH with
  | some p => if p = "" then [] else ["--additionalPATH", p]
  | none => []

/-- The `["--witnessType", tag]` fragment, with the same truthiness rule. -/
def witnessTypeArgument (k : KnownArgs) : List String :=
  match k.metavalWitnessType with
  | some t => if t = "" then [] else ["--witnessType", t]
  | none => []

/-- The part of `Tool.cmdline` after the locked resolution block: the
`hasattr(self, "wrappedTool")` re-check (whose `else` exits with the
could-not-find message), the `_in_tool_directory` scope delegating to the
sub-adapter (with the synthetic `output/ARG.c` task and the property file
joined with the old cwd and rewritten relative to the tool directory;
a `None` property file is a `TypeError` inside `os.path.join`), and the
final argument-vector assembly. -/
def cmdlineResolved (st : ToolState) (cwd executable : String)
    (knownargs : KnownArgs) (options tasks : List String)
    (propertyfile : Option String) (rlimits : RLimits)
    (evs : List Event) (verifierName : String) : Step (List String) :=
  match st.wrappedTool with
  | none => ⟨.sysExit "ERROR: Could not find wrapped tool", st, cwd, evs⟩
  | some sub =>
    match in_tool_directory st cwd (fun newCwd oldcwd =>
        match propertyfile with
        | none =>
          .error (.typeError
            "join() argument must be str, bytes, or os.PathLike object, not NoneType")
        | some pf =>
          sub.cmdline newCwd (sub.executable newCwd) options
            [os_path_relpath newCwd (os_path_join oldcwd "output/ARG.c")]
            (os_path_relpath newCwd (os_path_join oldcwd pf)) rlimits) with
    | (.error e, cwd2, evs2) => ⟨.raise e, st, cwd2, evs ++ evs2⟩
    | (.ok wrappedOptions, cwd2, evs2) =>
      match TOOL_TO_PATH_MAP.lookup verifierName with
      | none => ⟨.raise (.keyError verifierName), st, cwd2, evs ++ evs2⟩
      | some dirName =>
        ⟨.ok ([executable, "--verifier", dirName, "--witness",
               knownargs.metavalWitness]
            ++ additionalPathArgument knownargs ++ witnessTypeArgument knownargs
            ++ tasks ++ ["--"] ++ wrappedOptions),
          st, cwd2, evs ++ evs2⟩

/-- Model of `Tool.cmdline`: parse the four adapter options; lowercase the
identifier; under the lock either record the identifier and resolve the
sub-adapter (a failed import raises after `self.verifierName` was already
assigned), or compare against the recorded identifier and exit fatally on a
mismatch; then run the post-resolution part. -/
def cmdline (env : Env) (st : ToolState) (cwd : String)
    (executable : String) (options : List String) (tasks : List String)
    (propertyfile : Option String) (rlimits : RLimits) : Step (List String) :=
  match parse_known_args options with
  | .error m => ⟨.sysExit m, st, cwd, []⟩
  | .ok (knownargs, options2) =>
    match st.wrappedTool with
    | none =>
      match env.importTool (str_lower knownargs.metaval) with
      | none =>
        ⟨.raise (.importError ("benchexec.tools." ++ (str_lower knownargs.metaval))),
          ⟨some (str_lower knownargs.metaval), none⟩, cwd,
          [.resolve (str_lower knownargs.metaval)]⟩
      | some sub =>
        cmdlineResolved ⟨some (str_lower knownargs.metaval), some sub⟩ cwd executable
          knownargs options2 tasks propertyfile rlimits
          [.resolve (str_lower knownargs.metaval)] (str_lower knownargs.metaval)
    | some _ =>
      match st.verifierName with
      | none => ⟨.raise (.attributeError "verifierName"), st, cwd, []⟩
      | some recorded =>
        if (str_lower knownargs.metaval) = recorded then
          cmdlineResolved st cwd executable knownargs options2 tasks
            propertyfile rlimits [] (str_lower knownargs.metaval)
        else
          ⟨.sysExit "metaval is called with mixed wrapped tools", st, cwd, []⟩

end Tool

/-- The call resolves (or has already resolved) the identifier `vn` to the
sub-adapter `sub`: either the instance is fresh and the dynamic import of
`vn` yields `sub`, or `sub` is already recorded together with `vn`. -/
def ResolvesTo (env : Env) (st : ToolState) (vn : String) (sub : SubAdapter) : Prop :=
  (st.wrappedTool = none ∧ env.importTool vn = some sub) ∨
  (st.wrappedTool = some sub ∧ st.verifierName = some vn)

end Metaval

namespace Metaval

/-- A concrete sub-adapter used to instantiate theorems: constant executable,
constant argument vector, constant verdict. -/
def sub0 : SubAdapter :=
  ⟨fun _ => "subtool", fun _ _ _ _ _ _ => .ok ["SUBARG"], fun _ _ _ _ _ => .ok "true"⟩

/-- A concrete import environment where only `esbmc` is loadable. -/
def env0 : Env := ⟨fun n => if n = "esbmc" then some sub0 else none⟩

/-- A concrete import environment where only `cbmc` (a name outside
`TOOL_TO_PATH_MAP`) is loadable. -/
def envCbmc : Env := ⟨fun n => if n = "cbmc" then some sub0 else none⟩

/-- A concrete import environment where no sub-tool is loadable. -/
def envEmpty : Env := ⟨fun _ => none⟩

lemma in_tool_directory_cwd {α : Type} (st : ToolState) (cwd : String)
    (body : String → String → Except PyExn α) :
    (Tool.in_tool_directory st cwd body).2.1 = cwd := by
  unfold Tool.in_tool_directory
  split
  · rfl
  · split <;> rfl

lemma in_tool_directory_events {α : Type} (st : ToolState) (cwd : String)
    (body : String → String → Except PyExn α) :
    ((Tool.in_tool_directory st cwd body).2.2).filter Event.isResolve = [] := by
  unfold Tool.in_tool_directory
  split
  · simp [Event.isResolve]
  · split <;> simp [Event.isResolve]

lemma cmdlineResolved_state (st : ToolState) (cwd exe : String) (k : KnownArgs)
    (opts tasks : List String) (pf : Option String) (rl : RLimits)
    (evs : List Event) (vn : String) :
    (Tool.cmdlineResolved st cwd exe k opts tasks pf rl evs vn).state = st := by
  unfold Tool.cmdlineResolved
  split
  · rfl
  · split
    · rfl
    · split <;> rfl

lemma cmdlineResolved_cwd (st : ToolState) (cwd exe : String) (k : KnownArgs)
    (opts tasks : List String) (pf : Option String) (rl : RLimits)
    (evs : List Event) (vn : String) :
    (Tool.cmdlineResolved st cwd exe k opts tasks pf rl evs vn).cwd = cwd := by
  unfold Tool.cmdlineResolved
  split
  · rfl
  · rename_i sub hsub
    split
    · rename_i e cwd2 evs2 heq
      have h2 := congrArg (fun x => x.2.1) heq
      simp only [in_tool_directory_cwd] at h2
      simp [h2]
    · rename_i w cwd2 evs2 heq
      have h2 := congrArg (fun x => x.2.1) heq
      simp only [in_tool_directory_cwd] at h2
      split <;> simp [h2]

lemma cmdlineResolved_events (st : ToolState) (cwd exe : String) (k : KnownArgs)
    (opts tasks : List String) (pf : Option String) (rl : RLimits)
    (evs : List Event) (vn : String) :
    ((Tool.cmdlineResolved st cwd exe k opts tasks pf rl evs vn).events).filter
      Event.isResolve = evs.filter Event.isResolve := by
  unfold Tool.cmdlineResolved
  split
  · rfl
  · rename_i sub hsub
    split
    · rename_i e cwd2 evs2 heq
      have h2 := congrArg (fun x => (x.2.2).filter Event.isResolve) heq
      simp only [in_tool_directory_events] at h2
      simp [List.filter_append, ← h2]
    · rename_i w cwd2 evs2 heq
      have h2 := congrArg (fun x => (x.2.2).filter Event.isResolve) heq
      simp only [in_tool_directory_events] at h2
      split <;> simp [List.filter_append, ← h2]

lemma cmdlineResolved_nokey (cwd exe : String) (k : KnownArgs)
    (opts tasks : List String) (pf : Option String) (rl : RLimits)
    (evs : List Event) (sub : SubAdapter) (vn : String)
    (hd : Tool.TOOL_TO_PATH_MAP.lookup vn = none) :
    Tool.cmdlineResolved ⟨some vn, some sub⟩ cwd exe k opts tasks pf rl evs vn =
      ⟨.raise (.keyError vn), ⟨some vn, some sub⟩, cwd, evs ++ [.chdir cwd]⟩ := by
  simp [Tool.cmdlineResolved, Tool.in_tool_directory, hd]

lemma cmdlineResolved_pfnone (cwd exe : String) (k : KnownArgs)
    (opts tasks : List String) (rl : RLimits)
    (evs : List Event) (sub : SubAdapter) (vn dir : String)
    (hd : Tool.TOOL_TO_PATH_MAP.lookup vn = some dir) :
    Tool.cmdlineResolved ⟨some vn, some sub⟩ cwd exe k opts tasks none rl evs vn =
      ⟨.raise (.typeError
          "join() argument must be str, bytes, or os.PathLike object, not NoneType"),
        ⟨some vn, some sub⟩, cwd,
        evs ++ [.chdir (os_path_join cwd dir), .chdir cwd]⟩ := by
  simp [Tool.cmdlineResolved, Tool.in_tool_directory, hd]

lemma cmdlineResolved_sub_ok (cwd exe : String) (k : KnownArgs)
    (opts tasks : List String) (p : String) (rl : RLimits)
    (evs : List Event) (sub : SubAdapter) (vn dir : String) (w : List String)
    (hd : Tool.TOOL_TO_PATH_MAP.lookup vn = some dir)
    (hc : sub.cmdline (os_path_join cwd dir) (sub.executable (os_path_join cwd dir))
        opts [os_path_relpath (os_path_join cwd dir) (os_path_join cwd "output/ARG.c")]
        (os_path_relpath (os_path_join cwd dir) (os_path_join cwd p)) rl = .ok w) :
    Tool.cmdlineResolved ⟨some vn, some sub⟩ cwd exe k opts tasks (some p) rl evs vn =
      ⟨.ok ([exe, "--verifier", dir, "--witness", k.metavalWitness]
          ++ Tool.additionalPathArgument k ++ Tool.witnessTypeArgument k
          ++ tasks ++ ["--"] ++ w),
        ⟨some vn, some sub⟩, cwd,
        evs ++ [.chdir (os_path_join cwd dir), .chdir cwd]⟩ := by
  simp [Tool.cmdlineResolved, Tool.in_tool_directory, hd, hc]

lemma cmdlineResolved_sub_err (cwd exe : String) (k : KnownArgs)
    (opts tasks : List String) (p : String) (rl : RLimits)
    (evs : List Event) (sub : SubAdapter) (vn dir : String) (e : PyExn)
    (hd : Tool.TOOL_TO_PATH_MAP.lookup vn = some dir)
    (hc : sub.cmdline (os_path_join cwd dir) (sub.executable (os_path_join cwd dir))
        opts [os_path_relpath (os_path_join cwd dir) (os_path_join cwd "output/ARG.c")]
        (os_path_relpath (os_path_join cwd dir) (os_path_join cwd p)) rl = .error e) :
    Tool.cmdlineResolved ⟨some vn, some sub⟩ cwd exe k opts tasks (some p) rl evs vn =
      ⟨.raise e, ⟨some vn, some sub⟩, cwd,
        evs ++ [.chdir (os_path_join cwd dir), .chdir cwd]⟩ := by
  simp [Tool.cmdlineResolved, Tool.in_tool_directory, hd, hc]

lemma determine_result_cwd (st : ToolState) (cwd : String)
    (rc rs : Int) (outp : String) (tmo : Bool) :
    (Tool.determine_result st cwd rc rs outp tmo).cwd = cwd := by
  unfold Tool.determine_result
  split
  · rfl
  · split
    all_goals
      rename_i heq
      have h2 := congrArg (fun x => x.2.1) heq
      simp only [in_tool_directory_cwd] at h2
      simp [h2]

lemma scanKnownArgs_error_ne (l : List String) (acc : RawArgs) (rem : List String) :
    scanKnownArgs l acc rem ≠ .error "ERROR: Could not find wrapped tool" := by
  induction l, acc, rem using scanKnownArgs.induct <;>
    simp [scanKnownArgs] <;> assumption

lemma parse_known_args_error_ne (options : List String) (m : String)
    (h : parse_known_args options = .error m) :
    m ≠ "ERROR: Could not find wrapped tool" := by
  unfold parse_known_args at h
  split at h
  · rename_i heq
    cases h
    exact fun hm => scanKnownArgs_error_ne _ _ _ (hm ▸ heq)
  · split at h <;> (try cases h) <;> decide

lemma cmdlineResolved_some_no_exit (st : ToolState) (cwd exe : String)
    (k : KnownArgs) (opts tasks : List String) (pf : Option String)
    (rl : RLimits) (evs : List Event) (vn : String) (sub : SubAdapter)
    (hsub : st.wrappedTool = some sub) (m : String) :
    (Tool.cmdlineResolved st cwd exe k opts tasks pf rl evs vn).out ≠ .sysExit m := by
  unfold Tool.cmdlineResolved
  split
  · rename_i h
    rw [h] at hsub
    cases hsub
  · split
    · simp
    · split <;> simp

/-- C3: every `cmdline` and `determine_result` call leaves the process
working directory unchanged, on every exit path (normal return, process
exits, and raised errors from the directory change or the delegated call). -/
theorem C3_cwd_restored (env : Env) (st : ToolState) (cwd exe : String)
    (options tasks : List String) (pf : Option String) (rl : RLimits)
    (rc rs : Int) (outp : String) (tmo : Bool) :
    (Tool.cmdline env st cwd exe options tasks pf rl).cwd = cwd ∧
    (Tool.determine_result st cwd rc rs outp tmo).cwd = cwd := by
  constructor
  · unfold Tool.cmdline
    split
    · rfl
    · split
      · split
        · rfl
        · apply cmdlineResolved_cwd
      · split
        · rfl
        · split
          · apply cmdlineResolved_cwd
          · rfl
  · apply determine_result_cwd

/-- C9: the `else` branch after the locked resolution block, which would
exit with "ERROR: Could not find wrapped tool", is unreachable: no
execution of `cmdline` produces that process exit. -/
theorem C9_dead_branch_unreachable (env : Env) (st : ToolState)
    (cwd exe : String) (options tasks : List String) (pf : Option String)
    (rl : RLimits) :
    (Tool.cmdline env st cwd exe options tasks pf rl).out ≠
      .sysExit "ERROR: Could not find wrapped tool" := by
  unfold Tool.cmdline
  split
  · rename_i m heq
    intro hc
    simp at hc
    exact parse_known_args_error_ne _ _ heq hc
  · split
    · split
      · simp
      · apply cmdlineResolved_some_no_exit
        rfl
    · split
      · simp
      · split
        · apply cmdlineResolved_some_no_exit
          assumption
        · simp

/-- C4: invoked with no resolved sub-adapter, `determine_result` returns the
sentinel "METAVAL ERROR" verdict, changes state and working directory in no
way and emits no chdir; with a resolved sub-adapter whose directory lookup
and delegated call complete, it returns exactly the verdict of the
sub-adapter's `determine_result` on the same four arguments. -/
theorem C4_determine_result_cases (st : ToolState) (cwd : String)
    (rc rs : Int) (outp : String) (tmo : Bool) :
    (st.wrappedTool = none →
      Tool.determine_result st cwd rc rs outp tmo =
        ⟨.ok "METAVAL ERROR", st, cwd, []⟩) ∧
    (∀ sub vn dir v, st.wrappedTool = some sub → st.verifierName = some vn →
      Tool.TOOL_TO_PATH_MAP.lookup vn = some dir →
      sub.determine_result (os_path_join cwd dir) rc rs outp tmo = .ok v →
      (Tool.determine_result st cwd rc rs outp tmo).out = .ok v) := by
  constructor
  · intro h
    simp [Tool.determine_result, h]
  · intro sub vn dir v hs hv hd hr
    simp [Tool.determine_result, Tool.in_tool_directory, hs, hv, hd, hr]

/-- Witness for C4 at concrete inputs: a fresh instance yields the sentinel
verdict, a resolved instance yields the sub-adapter verdict. -/
theorem C4_determine_result_cases_witness :
    Tool.determine_result ⟨none, none⟩ "/work" 0 0 "out" false =
      ⟨.ok "METAVAL ERROR", ⟨none, none⟩, "/work", []⟩ ∧
    (Tool.determine_result ⟨some "esbmc", some sub0⟩ "/work" 0 0 "out" false).out
      = .ok "true" := by
  exact ⟨(C4_determine_result_cases ⟨none, none⟩ "/work" 0 0 "out" false).1 rfl,
    (C4_determine_result_cases ⟨some "esbmc", some sub0⟩ "/work" 0 0 "out" false).2
      sub0 "esbmc" "esbmc" "true" rfl rfl rfl rfl⟩

/-- C2 (amended): once a `cmdline` call has resolved the sub-adapter (the
`wrappedTool` attribute is set, with the identifier recorded alongside it),
a later `cmdline` call whose lowercased identifier differs terminates the
process with the mixed-wrapped-tools error before building any argument
vector or touching the working directory, and no later call replaces the
recorded identifier or the sub-adapter object. -/
theorem C2_identifier_frozen (env : Env) (st : ToolState) (cwd exe : String)
    (options tasks : List String) (pf : Option String) (rl : RLimits)
    (k : KnownArgs) (rem : List String) (vn : String) (sub : SubAdapter)
    (hp : parse_known_args options = .ok (k, rem))
    (hw : st.wrappedTool = some sub) (hv : st.verifierName = some vn) :
    (str_lower k.metaval ≠ vn →
      Tool.cmdline env st cwd exe options tasks pf rl =
        ⟨.sysExit "metaval is called with mixed wrapped tools", st, cwd, []⟩) ∧
    (Tool.cmdline env st cwd exe options tasks pf rl).state = st := by
  constructor
  · intro hne
    simp [Tool.cmdline, hp, hw, hv, hne]
  · simp only [Tool.cmdline, hp, hw, hv]
    split
    · apply cmdlineResolved_state
    · rfl

/-- Witness for C2 (amended): on an instance resolved to `esbmc`, a call
carrying `--metaval foo` exits with the mixed-tools diagnostic and leaves
the state unchanged. -/
theorem C2_identifier_frozen_witness :
    Tool.cmdline env0 ⟨some "esbmc", some sub0⟩ "/work" "metaval.sh"
        ["--metaval", "foo", "--metavalWitness", "w"] ["t.c"] (some "p.prp") [] =
      ⟨.sysExit "metaval is called with mixed wrapped tools",
        ⟨some "esbmc", some sub0⟩, "/work", []⟩ ∧
    (Tool.cmdline env0 ⟨some "esbmc", some sub0⟩ "/work" "metaval.sh"
        ["--metaval", "foo", "--metavalWitness", "w"] ["t.c"] (some "p.prp") []).state =
      ⟨some "esbmc", some sub0⟩ := by
  have h := C2_identifier_frozen env0 ⟨some "esbmc", some sub0⟩ "/work" "metaval.sh"
    ["--metaval", "foo", "--metavalWitness", "w"] ["t.c"] (some "p.prp") []
    ⟨"w", "foo", none, none⟩ [] "esbmc" sub0 rfl rfl rfl
  exact ⟨h.1 (by decide), h.2⟩

/-- C2 as stated is false: if the first call merely records the identifier
but the sub-adapter load fails, a later call with a different identifier
does not exit with the mixed-tools error and silently replaces the recorded
identifier. -/
theorem C2_counterexample :
    (Tool.cmdline env0 ⟨none, none⟩ "/work" "metaval.sh"
        ["--metaval", "foo", "--metavalWitness", "w"] ["t.c"] (some "p.prp") []).state.verifierName
      = some "foo" ∧
    (Tool.cmdline env0
        (Tool.cmdline env0 ⟨none, none⟩ "/work" "metaval.sh"
          ["--metaval", "foo", "--metavalWitness", "w"] ["t.c"] (some "p.prp") []).state
        "/work" "metaval.sh"
        ["--metaval", "esbmc", "--metavalWitness", "w"] ["t.c"] (some "p.prp") []).out
      = .ok ["metaval.sh", "--verifier", "esbmc", "--witness", "w", "t.c", "--", "SUBARG"] ∧
    (Tool.cmdline env0
        (Tool.cmdline env0 ⟨none, none⟩ "/work" "metaval.sh"
          ["--metaval", "foo", "--metavalWitness", "w"] ["t.c"] (some "p.prp") []).state
        "/work" "metaval.sh"
        ["--metaval", "esbmc", "--metavalWitness", "w"] ["t.c"] (some "p.prp") []).state.verifierName
      = some "esbmc" := by
  refine ⟨?_, ?_, ?_⟩ <;> decide

/-- C5 (amended): when the lowercased identifier has no loadable sub-adapter
module, `cmdline` raises an `ImportError` that propagates to the caller (a
structured exception), after recording the identifier but with no
sub-adapter set; the adapter does not terminate the process itself. -/
theorem C5_import_failure_raises (env : Env) (st : ToolState) (cwd exe : String)
    (options tasks : List String) (pf : Option String) (rl : RLimits)
    (k : KnownArgs) (rem : List String)
    (hp : parse_known_args options = .ok (k, rem))
    (hw : st.wrappedTool = none)
    (himp : env.importTool (str_lower k.metaval) = none) :
    Tool.cmdline env st cwd exe options tasks pf rl =
      ⟨.raise (.importError ("benchexec.tools." ++ str_lower k.metaval)),
        ⟨some (str_lower k.metaval), none⟩, cwd, [.resolve (str_lower k.metaval)]⟩ := by
  simp [Tool.cmdline, hp, hw, himp]

/-- Witness for C5 (amended) at a concrete unloadable identifier. -/
theorem C5_import_failure_raises_witness :
    Tool.cmdline envEmpty ⟨none, none⟩ "/work" "metaval.sh"
        ["--metaval", "nosuch", "--metavalWitness", "w"] ["t.c"] (some "p.prp") [] =
      ⟨.raise (.importError ("benchexec.tools." ++ str_lower "nosuch")),
        ⟨some (str_lower "nosuch"), none⟩, "/work", [.resolve (str_lower "nosuch")]⟩ :=
  C5_import_failure_raises envEmpty ⟨none, none⟩ "/work" "metaval.sh"
    ["--metaval", "nosuch", "--metavalWitness", "w"] ["t.c"] (some "p.prp") []
    ⟨"w", "nosuch", none, none⟩ [] rfl rfl rfl

/-- C5 as stated is false: on an unloadable identifier the call surfaces a
structured `ImportError` to the Runner instead of terminating the process
with a diagnostic and nonzero status. -/
theorem C5_counterexample :
    (Tool.cmdline envEmpty ⟨none, none⟩ "/work" "metaval.sh"
        ["--metaval", "nosuch", "--metavalWitness", "w"] ["t.c"] (some "p.prp") []).out
      = .raise (.importError "benchexec.tools.nosuch") ∧
    ¬ ∃ m, (Tool.cmdline envEmpty ⟨none, none⟩ "/work" "metaval.sh"
        ["--metaval", "nosuch", "--metavalWitness", "w"] ["t.c"] (some "p.prp") []).out
      = .sysExit m := by
  have h1 : (Tool.cmdline envEmpty ⟨none, none⟩ "/work" "metaval.sh"
      ["--metaval", "nosuch", "--metavalWitness", "w"] ["t.c"] (some "p.prp") []).out
      = .raise (.importError "benchexec.tools.nosuch") := by decide
  refine ⟨h1, ?_⟩
  rintro ⟨m, hm⟩
  rw [h1] at hm
  exact POutcome.noConfusion hm

/-- C7: evaluating the embedded `cmdline` with the property file omitted
(`None`): the call raises a `TypeError` inside `os.path.join` instead of
completing, although the parameter is declared optional with default
`None`. -/
theorem C7_propertyfile_none_typeerror :
    (Tool.cmdline env0 ⟨none, none⟩ "/work" "metaval.sh"
        ["--metaval", "esbmc", "--metavalWitness", "w.graphml"] ["t.c"] none []).out
      = .raise (.typeError
          "join() argument must be str, bytes, or os.PathLike object, not NoneType") := by
  decide

/-- C8: with options carrying the same (case-insensitive) identifier, the
sub-adapter is imported and constructed exactly once: the first call on a
fresh instance performs exactly one resolution and stores the constructed
sub-adapter, and any later call on the resolved instance performs no
resolution and leaves the stored sub-adapter object unchanged. -/
theorem C8_resolve_once (env : Env) (st : ToolState) (cwd exe : String)
    (options tasks : List String) (pf : Option String) (rl : RLimits)
    (k : KnownArgs) (rem : List String) (vn : String)
    (hp : parse_known_args options = .ok (k, rem))
    (hvn : vn = str_lower k.metaval) :
    (∀ sub, st.wrappedTool = none → env.importTool vn = some sub →
      ((Tool.cmdline env st cwd exe options tasks pf rl).state = ⟨some vn, some sub⟩ ∧
        ((Tool.cmdline env st cwd exe options tasks pf rl).events).filter Event.isResolve
          = [.resolve vn])) ∧
    (∀ sub, st.wrappedTool = some sub → st.verifierName = some vn →
      ((Tool.cmdline env st cwd exe options tasks pf rl).state = st ∧
        ((Tool.cmdline env st cwd exe options tasks pf rl).events).filter Event.isResolve
          = [])) := by
  subst hvn
  constructor
  · intro sub hw himp
    constructor
    · simp only [Tool.cmdline, hp, hw, himp]
      apply cmdlineResolved_state
    · simp only [Tool.cmdline, hp, hw, himp]
      rw [cmdlineResolved_events]
      simp [Event.isResolve]
  · intro sub hw hv
    constructor
    · simp only [Tool.cmdline, hp, hw, hv]
      split
      · apply cmdlineResolved_state
      · rfl
    · simp only [Tool.cmdline, hp, hw, hv]
      split
      · rw [cmdlineResolved_events]
        rfl
      · rfl

/-- Witness for C8: first call on a fresh instance resolves `esbmc` exactly
once; a repeated call on the resolved instance resolves nothing and keeps
the state. -/
theorem C8_resolve_once_witness :
    (Tool.cmdline env0 ⟨none, none⟩ "/work" "metaval.sh"
        ["--metaval", "esbmc", "--metavalWitness", "w"] ["t.c"] (some "p.prp") []).state
      = ⟨some "esbmc", some sub0⟩ ∧
    ((Tool.cmdline env0 ⟨none, none⟩ "/work" "metaval.sh"
        ["--metaval", "esbmc", "--metavalWitness", "w"] ["t.c"] (some "p.prp") []).events).filter
        Event.isResolve = [.resolve "esbmc"] ∧
    (Tool.cmdline env0 ⟨some "esbmc", some sub0⟩ "/work" "metaval.sh"
        ["--metaval", "esbmc", "--metavalWitness", "w"] ["t.c"] (some "p.prp") []).state
      = ⟨some "esbmc", some sub0⟩ ∧
    ((Tool.cmdline env0 ⟨some "esbmc", some sub0⟩ "/work" "metaval.sh"
        ["--metaval", "esbmc", "--metavalWitness", "w"] ["t.c"] (some "p.prp") []).events).filter
        Event.isResolve = [] := by
  have h1 := C8_resolve_once env0 ⟨none, none⟩ "/work" "metaval.sh"
    ["--metaval", "esbmc", "--metavalWitness", "w"] ["t.c"] (some "p.prp") []
    ⟨"w", "esbmc", none, none⟩ [] "esbmc" rfl rfl
  have h2 := C8_resolve_once env0 ⟨some "esbmc", some sub0⟩ "/work" "metaval.sh"
    ["--metaval", "esbmc", "--metavalWitness", "w"] ["t.c"] (some "p.prp") []
    ⟨"w", "esbmc", none, none⟩ [] "esbmc" rfl rfl
  exact ⟨(h1.1 sub0 rfl rfl).1, (h1.1 sub0 rfl rfl).2,
    (h2.2 sub0 rfl rfl).1, (h2.2 sub0 rfl rfl).2⟩

/-- C10: a loadable identifier outside `TOOL_TO_PATH_MAP` (such as `cbmc`)
is resolved and recorded, then the call fails with a `KeyError` in the
working-directory change; the instance stays resolved to it, and every
later `cmdline` call with the same identifier, and every
`determine_result` call, fails with the same `KeyError` instead of any
specified fatal exit or the sentinel verdict. -/
theorem C10_unmapped_identifier (env : Env) (st : ToolState) (cwd exe : String)
    (options tasks : List String) (pf : Option String) (rl : RLimits)
    (k : KnownArgs) (rem : List String) (vn : String) (sub : SubAdapter)
    (hp : parse_known_args options = .ok (k, rem))
    (hvn : vn = str_lower k.metaval)
    (hw : st.wrappedTool = none)
    (himp : env.importTool vn = some sub)
    (hmap : Tool.TOOL_TO_PATH_MAP.lookup vn = none) :
    Tool.cmdline env st cwd exe options tasks pf rl =
      ⟨.raise (.keyError vn), ⟨some vn, some sub⟩, cwd, [.resolve vn, .chdir cwd]⟩ ∧
    (∀ env2 cwd2 exe2 options2 tasks2 pf2 rl2 k2 rem2,
      parse_known_args options2 = .ok (k2, rem2) → str_lower k2.metaval = vn →
      Tool.cmdline env2 ⟨some vn, some sub⟩ cwd2 exe2 options2 tasks2 pf2 rl2 =
        ⟨.raise (.keyError vn), ⟨some vn, some sub⟩, cwd2, [.chdir cwd2]⟩) ∧
    (∀ cwd2 rc rs outp tmo,
      Tool.determine_result ⟨some vn, some sub⟩ cwd2 rc rs outp tmo =
        ⟨.raise (.keyError vn), ⟨some vn, some sub⟩, cwd2, [.chdir cwd2]⟩) := by
  refine ⟨?_, ?_, ?_⟩
  · simp only [Tool.cmdline, hp]
    rw [← hvn]
    simp only [hw, himp]
    rw [cmdlineResolved_nokey _ _ _ _ _ _ _ _ _ _ hmap]
    rfl
  · intro env2 cwd2 exe2 options2 tasks2 pf2 rl2 k2 rem2 hp2 hvn2
    simp only [Tool.cmdline, hp2]
    rw [hvn2, if_pos rfl]
    rw [cmdlineResolved_nokey _ _ _ _ _ _ _ _ _ _ hmap]
    rfl
  · intro cwd2 rc rs outp tmo
    simp [Tool.determine_result, Tool.in_tool_directory, hmap]

/-- Witness for C10 at the concrete identifier `cbmc`. -/
theorem C10_unmapped_identifier_witness :
    Tool.cmdline envCbmc ⟨none, none⟩ "/work" "metaval.sh"
        ["--metaval", "cbmc", "--metavalWitness", "w"] ["t.c"] (some "p.prp") [] =
      ⟨.raise (.keyError "cbmc"), ⟨some "cbmc", some sub0⟩, "/work",
        [.resolve "cbmc", .chdir "/work"]⟩ ∧
    Tool.cmdline envCbmc ⟨some "cbmc", some sub0⟩ "/work2" "metaval.sh"
        ["--metaval", "cbmc", "--metavalWitness", "w"] ["t.c"] (some "p.prp") [] =
      ⟨.raise (.keyError "cbmc"), ⟨some "cbmc", some sub0⟩, "/work2", [.chdir "/work2"]⟩ ∧
    Tool.determine_result ⟨some "cbmc", some sub0⟩ "/work" 0 0 "out" false =
      ⟨.raise (.keyError "cbmc"), ⟨some "cbmc", some sub0⟩, "/work", [.chdir "/work"]⟩ := by
  have h := C10_unmapped_identifier envCbmc ⟨none, none⟩ "/work" "metaval.sh"
    ["--metaval", "cbmc", "--metavalWitness", "w"] ["t.c"] (some "p.prp") []
    ⟨"w", "cbmc", none, none⟩ [] "cbmc" sub0 rfl rfl rfl rfl rfl
  exact ⟨h.1,
    h.2.1 envCbmc "/work2" "metaval.sh" ["--metaval", "cbmc", "--metavalWitness", "w"]
      ["t.c"] (some "p.prp") [] ⟨"w", "cbmc", none, none⟩ [] rfl rfl,
    h.2.2 "/work" 0 0 "out" false⟩

/-- C6: on a successful resolution with a mapped directory and a property
file present, the result of `cmdline` is determined by the sub-adapter's
own `cmdline` invoked at the tool directory with the sub-adapter's own
executable, the leftover options, the single synthetic task
`output/ARG.c` under the original working directory rewritten relative to
the tool directory, the property file rewritten the same way, and the
resource limits unchanged. -/
theorem C6_delegated_call (env : Env) (st : ToolState) (cwd exe : String)
    (options tasks : List String) (p : String) (rl : RLimits)
    (k : KnownArgs) (rem : List String) (sub : SubAdapter) (dir : String)
    (hp : parse_known_args options = .ok (k, rem))
    (hres : ResolvesTo env st (str_lower k.metaval) sub)
    (hdir : Tool.TOOL_TO_PATH_MAP.lookup (str_lower k.metaval) = some dir) :
    (Tool.cmdline env st cwd exe options tasks (some p) rl).out =
      (match sub.cmdline (os_path_join cwd dir) (sub.executable (os_path_join cwd dir)) rem
          [os_path_relpath (os_path_join cwd dir) (os_path_join cwd "output/ARG.c")]
          (os_path_relpath (os_path_join cwd dir) (os_path_join cwd p)) rl with
        | .ok w => .ok ([exe, "--verifier", dir, "--witness", k.metavalWitness]
            ++ Tool.additionalPathArgument k ++ Tool.witnessTypeArgument k
            ++ tasks ++ ["--"] ++ w)
        | .error e => .raise e) := by
  obtain ⟨v1, w1⟩ := st
  rcases hres with ⟨hw, himp⟩ | ⟨hw, hv⟩
  · simp only at hw
    subst hw
    cases hc : sub.cmdline (os_path_join cwd dir) (sub.executable (os_path_join cwd dir)) rem
        [os_path_relpath (os_path_join cwd dir) (os_path_join cwd "output/ARG.c")]
        (os_path_relpath (os_path_join cwd dir) (os_path_join cwd p)) rl with
    | ok w =>
      simp only [Tool.cmdline, hp, himp]
      rw [cmdlineResolved_sub_ok _ _ _ _ _ _ _ _ _ _ _ _ hdir hc]
    | error e =>
      simp only [Tool.cmdline, hp, himp]
      rw [cmdlineResolved_sub_err _ _ _ _ _ _ _ _ _ _ _ _ hdir hc]
  · simp only at hw hv
    subst hw
    subst hv
    cases hc : sub.cmdline (os_path_join cwd dir) (sub.executable (os_path_join cwd dir)) rem
        [os_path_relpath (os_path_join cwd dir) (os_path_join cwd "output/ARG.c")]
        (os_path_relpath (os_path_join cwd dir) (os_path_join cwd p)) rl with
    | ok w =>
      simp only [Tool.cmdline, hp, if_true]
      rw [cmdlineResolved_sub_ok _ _ _ _ _ _ _ _ _ _ _ _ hdir hc]
    | error e =>
      simp only [Tool.cmdline, hp, if_true]
      rw [cmdlineResolved_sub_err _ _ _ _ _ _ _ _ _ _ _ _ hdir hc]

/-- Witness for C6 at a concrete resolved call on `esbmc`. -/
theorem C6_delegated_call_witness :
    (Tool.cmdline env0 ⟨none, none⟩ "/work" "metaval.sh"
        ["--metaval", "esbmc", "--metavalWitness", "w"] ["t.c"] (some "p.prp") []).out =
      (match sub0.cmdline (os_path_join "/work" "esbmc")
          (sub0.executable (os_path_join "/work" "esbmc")) []
          [os_path_relpath (os_path_join "/work" "esbmc") (os_path_join "/work" "output/ARG.c")]
          (os_path_relpath (os_path_join "/work" "esbmc") (os_path_join "/work" "p.prp")) [] with
        | .ok w => .ok (["metaval.sh", "--verifier", "esbmc", "--witness", "w"]
            ++ Tool.additionalPathArgument ⟨"w", "esbmc", none, none⟩
            ++ Tool.witnessTypeArgument ⟨"w", "esbmc", none, none⟩
            ++ ["t.c"] ++ ["--"] ++ w)
        | .error e => .raise e) :=
  C6_delegated_call env0 ⟨none, none⟩ "/work" "metaval.sh"
    ["--metaval", "esbmc", "--metavalWitness", "w"] ["t.c"] "p.prp" []
    ⟨"w", "esbmc", none, none⟩ [] sub0 "esbmc" rfl (Or.inl ⟨rfl, rfl⟩) rfl

lemma cmdlineResolved_ok_inv (cwd exe : String) (k : KnownArgs)
    (opts tasks : List String) (pf : Option String) (rl : RLimits)
    (evs : List Event) (sub : SubAdapter) (vn : String) (argv : List String)
    (hout : (Tool.cmdlineResolved ⟨some vn, some sub⟩ cwd exe k opts tasks pf rl evs vn).out
      = .ok argv) :
    ∃ dir p w, Tool.TOOL_TO_PATH_MAP.lookup vn = some dir ∧ pf = some p ∧
      sub.cmdline (os_path_join cwd dir) (sub.executable (os_path_join cwd dir)) opts
        [os_path_relpath (os_path_join cwd dir) (os_path_join cwd "output/ARG.c")]
        (os_path_relpath (os_path_join cwd dir) (os_path_join cwd p)) rl = .ok w ∧
      argv = [exe, "--verifier", dir, "--witness", k.metavalWitness]
        ++ Tool.additionalPathArgument k ++ Tool.witnessTypeArgument k
        ++ tasks ++ ["--"] ++ w := by
  cases hd : Tool.TOOL_TO_PATH_MAP.lookup vn with
  | none =>
    rw [cmdlineResolved_nokey _ _ _ _ _ _ _ _ _ _ hd] at hout
    simp at hout
  | some dir =>
    cases pf with
    | none =>
      rw [cmdlineResolved_pfnone _ _ _ _ _ _ _ _ _ _ hd] at hout
      simp at hout
    | some p =>
      cases hc : sub.cmdline (os_path_join cwd dir) (sub.executable (os_path_join cwd dir))
          opts [os_path_relpath (os_path_join cwd dir) (os_path_join cwd "output/ARG.c")]
          (os_path_relpath (os_path_join cwd dir) (os_path_join cwd p)) rl with
      | error e =>
        rw [cmdlineResolved_sub_err _ _ _ _ _ _ _ _ _ _ _ _ hd hc] at hout
        simp at hout
      | ok w =>
        rw [cmdlineResolved_sub_ok _ _ _ _ _ _ _ _ _ _ _ _ hd hc] at hout
        simp only [] at hout
        exact ⟨dir, p, w, rfl, rfl, hc, by
          cases hout
          rfl⟩

/-- C1 (amended): every `cmdline` call that returns an argument vector
returns exactly `[executable, "--verifier", TOOL_TO_PATH_MAP[lowercased
identifier], "--witness", witness]`, followed by `["--additionalPATH", path]`
when `--metavalAdditionalPATH` was given with a non-empty value, followed by
`["--witnessType", tag]` when `--metavalWitnessType` was given with a
non-empty value, followed by the tasks, `"--"`, and the argv produced by the
sub-adapter's `cmdline`. -/
theorem C1_cmdline_shape (env : Env) (st : ToolState) (cwd exe : String)
    (options tasks : List String) (pf : Option String) (rl : RLimits)
    (argv : List String)
    (hout : (Tool.cmdline env st cwd exe options tasks pf rl).out = .ok argv) :
    ∃ k rem dir sub p w,
      parse_known_args options = .ok (k, rem) ∧
      Tool.TOOL_TO_PATH_MAP.lookup (str_lower k.metaval) = some dir ∧
      ResolvesTo env st (str_lower k.metaval) sub ∧
      pf = some p ∧
      sub.cmdline (os_path_join cwd dir) (sub.executable (os_path_join cwd dir)) rem
        [os_path_relpath (os_path_join cwd dir) (os_path_join cwd "output/ARG.c")]
        (os_path_relpath (os_path_join cwd dir) (os_path_join cwd p)) rl = .ok w ∧
      argv = [exe, "--verifier", dir, "--witness", k.metavalWitness]
        ++ Tool.additionalPathArgument k ++ Tool.witnessTypeArgument k
        ++ tasks ++ ["--"] ++ w := by
  obtain ⟨v1, w1⟩ := st
  cases hp : parse_known_args options with
  | error m =>
    simp [Tool.cmdline, hp] at hout
  | ok kr =>
    obtain ⟨k, rem⟩ := kr
    cases w1 with
    | none =>
      cases himp : env.importTool (str_lower k.metaval) with
      | none =>
        simp [Tool.cmdline, hp, himp] at hout
      | some sub =>
        simp only [Tool.cmdline, hp, himp] at hout
        obtain ⟨dir, p, w, hd, hpf, hc, hargv⟩ :=
          cmdlineResolved_ok_inv _ _ _ _ _ _ _ _ _ _ _ hout
        exact ⟨k, rem, dir, sub, p, w, rfl, hd, Or.inl ⟨rfl, himp⟩, hpf, hc, hargv⟩
    | some sub1 =>
      cases v1 with
      | none =>
        simp [Tool.cmdline, hp] at hout
      | some recorded =>
        by_cases hif : str_lower k.metaval = recorded
        · subst hif
          simp only [Tool.cmdline, hp, if_true] at hout
          obtain ⟨dir, p, w, hd, hpf, hc, hargv⟩ :=
            cmdlineResolved_ok_inv _ _ _ _ _ _ _ _ _ _ _ hout
          exact ⟨k, rem, dir, sub1, p, w, rfl, hd, Or.inr ⟨rfl, rfl⟩, hpf, hc, hargv⟩
        · simp only [Tool.cmdline, hp] at hout
          rw [if_neg hif] at hout
          simp at hout

/-- Witness for C1 (amended) at a concrete successful call. -/
theorem C1_cmdline_shape_witness :
    ∃ k rem dir sub p w,
      parse_known_args ["--metaval", "esbmc", "--metavalWitness", "w"] = .ok (k, rem) ∧
      Tool.TOOL_TO_PATH_MAP.lookup (str_lower k.metaval) = some dir ∧
      ResolvesTo env0 ⟨none, none⟩ (str_lower k.metaval) sub ∧
      (some "p.prp" : Option String) = some p ∧
      sub.cmdline (os_path_join "/work" dir)
        (sub.executable (os_path_join "/work" dir)) rem
        [os_path_relpath (os_path_join "/work" dir) (os_path_join "/work" "output/ARG.c")]
        (os_path_relpath (os_path_join "/work" dir) (os_path_join "/work" p)) [] = .ok w ∧
      ["metaval.sh", "--verifier", "esbmc", "--witness", "w", "t.c", "--", "SUBARG"]
        = ["metaval.sh", "--verifier", dir, "--witness", k.metavalWitness]
          ++ Tool.additionalPathArgument k ++ Tool.witnessTypeArgument k
          ++ ["t.c"] ++ ["--"] ++ w :=
  C1_cmdline_shape env0 ⟨none, none⟩ "/work" "metaval.sh"
    ["--metaval", "esbmc", "--metavalWitness", "w"] ["t.c"] (some "p.prp") []
    ["metaval.sh", "--verifier", "esbmc", "--witness", "w", "t.c", "--", "SUBARG"]
    (by decide)

/-- C1 as stated is false in one corner: `--metavalAdditionalPATH` and
`--metavalWitnessType` given with empty values are dropped by Python
truthiness, so the returned vector contains neither pair although both
options were given. -/
theorem C1_counterexample :
    (Tool.cmdline env0 ⟨none, none⟩ "/work" "metaval.sh"
        ["--metaval", "esbmc", "--metavalWitness", "w.graphml",
          "--metavalAdditionalPATH", "", "--metavalWitnessType", ""]
        ["t.c"] (some "p.prp") []).out
      = .ok ["metaval.sh", "--verifier", "esbmc", "--witness", "w.graphml",
          "t.c", "--", "SUBARG"] ∧
    "--additionalPATH" ∉
      (["metaval.sh", "--verifier", "esbmc", "--witness", "w.graphml",
          "t.c", "--", "SUBARG"] : List String) ∧
    "--witnessType" ∉
      (["metaval.sh", "--verifier", "esbmc", "--witness", "w.graphml",
          "t.c", "--", "SUBARG"] : List String) := by
  exact ⟨by decide, by decide, by decide⟩

end Metaval
